import Mathlib

/-!
Shallow embedding of the core of the `db-security-scanner` repository:
the CIS rule catalog (`src/agents/cis_rules.py`), the result-normalizing
transforms and the risk aggregator (`src/scanner.py`).

Conventions of the embedding:
 - Python dictionaries with a fixed key set become Lean structures; a key
   that the code reads with `.get(k, default)` and that callers may omit
   becomes an `Option` field, with `Option.getD` translating the default.
 - A configuration snapshot `Dict[str, {value: ...}]` is modelled as an
   association list from parameter name to its value string; the chained
   `config.get(name, {}).get('value', dflt)` becomes a lookup with default.
 - Python numbers: scores and percentages are modelled as `ℚ` (the float
   arithmetic used — division, `min`, `max`, subtraction of small integers —
   is exact real arithmetic at every value the claims touch); counts are `Nat`.
 - All functions are pure, as are their Python originals.
-/

namespace DBScanner

/-- A normalized finding, the common shape built by the transforms in
`scanner.py` (config issues carry no cve_id; the field defaults to none). -/
structure Finding where
  title : String := ""
  description : String := ""
  severity : String := ""
  cve_id : Option String := none
  remediation : String := ""
deriving Repr, DecidableEq

/-- A configuration snapshot: parameter name ↦ value string. -/
abbrev ConfigSnapshot := List (String × String)

/-- `config.get(name, {}).get('value', dflt)` from `cis_rules.py`. -/
def getParamValue (config : ConfigSnapshot) (name dflt : String) : String :=
  match config.find? (fun p => p.1 == name) with
  | some p => p.2
  | none => dflt

/-- The dictionary each `check_*` static method of `CISBenchmarkRules` returns. -/
structure CheckResult where
  check_id : String
  title : String
  requirement : String
  current_value : String
  required_value : String
  status : String
  severity : String
  remediation : String
deriving Repr, DecidableEq

/-- `CISBenchmarkRules.check_2_2_logging_collector`. -/
def check_2_2_logging_collector (config : ConfigSnapshot) : CheckResult :=
  let value := getParamValue config "logging_collector" "off"
  { check_id := "2.2"
    title := "Ensure the logging collector is enabled"
    requirement := "logging_collector must be set to ON"
    current_value := value
    required_value := "on"
    status := if value == "on" then "PASS" else "FAIL"
    severity := "high"
    remediation := "Set logging_collector = on in postgresql.conf" }

/-- `CISBenchmarkRules.check_2_3_log_connections`. -/
def check_2_3_log_connections (config : ConfigSnapshot) : CheckResult :=
  let value := getParamValue config "log_connections" "off"
  { check_id := "2.3"
    title := "Ensure log_connections is enabled"
    requirement := "log_connections must be set to ON"
    current_value := value
    required_value := "on"
    status := if value == "on" then "PASS" else "FAIL"
    severity := "medium"
    remediation := "Set log_connections = on in postgresql.conf" }

/-- `CISBenchmarkRules.check_2_4_log_disconnections`. -/
def check_2_4_log_disconnections (config : ConfigSnapshot) : CheckResult :=
  let value := getParamValue config "log_disconnections" "off"
  { check_id := "2.4"
    title := "Ensure log_disconnections is enabled"
    requirement := "log_disconnections must be set to ON"
    current_value := value
    required_value := "on"
    status := if value == "on" then "PASS" else "FAIL"
    severity := "medium"
    remediation := "Set log_disconnections = on in postgresql.conf" }

/-- `CISBenchmarkRules.check_2_5_log_statement`. -/
def check_2_5_log_statement (config : ConfigSnapshot) : CheckResult :=
  let value := getParamValue config "log_statement" "none"
  let acceptable_values := ["ddl", "mod", "all"]
  { check_id := "2.5"
    title := "Ensure log_statement is set to ddl or higher"
    requirement := "log_statement must be ddl, mod, or all"
    current_value := value
    required_value := "ddl (minimum)"
    status := if acceptable_values.contains value then "PASS" else "FAIL"
    severity := "high"
    remediation := "Set log_statement = ddl (or mod/all) in postgresql.conf" }

/-- `CISBenchmarkRules.check_4_2_ssl_enabled`. -/
def check_4_2_ssl_enabled (config : ConfigSnapshot) : CheckResult :=
  let value := getParamValue config "ssl" "off"
  { check_id := "4.2"
    title := "Ensure SSL is enabled"
    requirement := "ssl must be set to ON"
    current_value := value
    required_value := "on"
    status := if value == "on" then "PASS" else "FAIL"
    severity := "critical"
    remediation := "Set ssl = on in postgresql.conf and configure SSL certificates" }

/-- `CISBenchmarkRules.check_4_3_password_encryption`. -/
def check_4_3_password_encryption (config : ConfigSnapshot) : CheckResult :=
  let value := getParamValue config "password_encryption" "md5"
  { check_id := "4.3"
    title := "Ensure password_encryption uses SCRAM-SHA-256"
    requirement := "password_encryption must be scram-sha-256"
    current_value := value
    required_value := "scram-sha-256"
    status := if value == "scram-sha-256" then "PASS" else "FAIL"
    severity := "critical"
    remediation := "Set password_encryption = scram-sha-256 in postgresql.conf" }

/-- `CISBenchmarkRules.run_all_checks`: the six checks, in source order. -/
def run_all_checks (config : ConfigSnapshot) : List CheckResult :=
  [check_2_2_logging_collector config,
   check_2_3_log_connections config,
   check_2_4_log_disconnections config,
   check_2_5_log_statement config,
   check_4_2_ssl_enabled config,
   check_4_3_password_encryption config]

/-- The dictionary returned by `CISBenchmarkRules.get_compliance_summary`. -/
structure ComplianceSummary where
  total_checks : Nat
  passed : Nat
  failed : Nat
  compliance_percentage : ℚ
  critical_failures : Nat
  all_checks : List CheckResult
  note : String
deriving Repr, DecidableEq

/-- `CISBenchmarkRules.get_compliance_summary`. -/
def get_compliance_summary (config : ConfigSnapshot) : ComplianceSummary :=
  let checks := run_all_checks config
  let total := checks.length
  let passed := (checks.filter (fun c => c.status == "PASS")).length
  let failed := total - passed
  let critical_failures :=
    (checks.filter (fun c => c.status == "FAIL" && c.severity == "critical")).length
  { total_checks := total
    passed := passed
    failed := failed
    compliance_percentage := if total > 0 then (passed : ℚ) / (total : ℚ) * 100 else 0
    critical_failures := critical_failures
    all_checks := checks
    note := "This is a subset of CIS checks. Full compliance requires 50+ checks." }

/-- A raw item of the advisory oracle's config analysis (`critical_issues`
and `warnings` entries); every key may be absent. -/
structure RawConfigItem where
  parameter : Option String := none
  issue : Option String := none
  concern : Option String := none
  recommendation : Option String := none
  severity : Option String := none
deriving Repr, DecidableEq

/-- The raw config-analysis payload; the lists themselves may be absent. -/
structure ConfigAnalysisRaw where
  critical_issues : Option (List RawConfigItem) := none
  warnings : Option (List RawConfigItem) := none
deriving Repr, DecidableEq

/-- Output shape of `_transform_config_analysis`. -/
structure ConfigAnalysisOut where
  issues : List Finding
deriving Repr, DecidableEq

/-- `DatabaseSecurityScanner._transform_config_analysis`: critical issues
then warnings, appended in source order. -/
def transform_config_analysis (raw : ConfigAnalysisRaw) : ConfigAnalysisOut :=
  { issues :=
      ((raw.critical_issues.getD []).map (fun item =>
        { title := item.parameter.getD "Unknown" ++ " Misconfiguration"
          description := item.issue.getD ""
          severity := "critical"
          remediation := item.recommendation.getD "" }))
      ++ ((raw.warnings.getD []).map (fun item =>
        { title := item.parameter.getD "Unknown" ++ " Warning"
          description := item.concern.getD ""
          severity := "medium"
          remediation := item.recommendation.getD "" })) }

/-- A raw vulnerability item from the oracle; every key may be absent. -/
structure RawVulnItem where
  title : Option String := none
  description : Option String := none
  severity : Option String := none
  cve_id : Option String := none
  remediation : Option String := none
deriving Repr, DecidableEq

/-- The raw vulnerability-analysis payload. -/
structure VulnAnalysisRaw where
  vulnerabilities : Option (List RawVulnItem) := none
deriving Repr, DecidableEq

/-- Output shape of `_transform_vulnerability_analysis`. -/
structure VulnAnalysisOut where
  vulnerabilities : List Finding
deriving Repr, DecidableEq

/-- `DatabaseSecurityScanner._transform_vulnerability_analysis`. -/
def transform_vulnerability_analysis (raw : VulnAnalysisRaw) : VulnAnalysisOut :=
  { vulnerabilities := (raw.vulnerabilities.getD []).map (fun item =>
      { title := item.title.getD "Unknown Vulnerability"
        description := item.description.getD ""
        severity := item.severity.getD "medium"
        cve_id := item.cve_id
        remediation := item.remediation.getD "" }) }

/-- A failed-check record of the compliance transforms. -/
structure FailedCheck where
  check_id : String
  title : String
  requirement : String
  current_value : String
  severity : String
  remediation : String
deriving Repr, DecidableEq

/-- Output shape of `_transform_cis_checks` and `_transform_compliance_analysis`. -/
structure ComplianceAnalysisOut where
  passed_checks : Nat
  total_checks : Nat
  compliance_percentage : ℚ
  failed_checks : List FailedCheck
deriving Repr, DecidableEq

/-- `DatabaseSecurityScanner._transform_cis_checks`. -/
def transform_cis_checks (checks : List CheckResult) : ComplianceAnalysisOut :=
  let passed_checks := (checks.filter (fun c => c.status == "PASS")).length
  let total_checks := checks.length
  let failed_checks := (checks.filter (fun c => !(c.status == "PASS"))).map (fun c =>
    { check_id := c.check_id
      title := c.title
      requirement := c.requirement
      current_value := c.current_value
      severity := c.severity
      remediation := c.remediation })
  { passed_checks := passed_checks
    total_checks := total_checks
    compliance_percentage :=
      if total_checks > 0 then (passed_checks : ℚ) / (total_checks : ℚ) * 100 else 100
    failed_checks := failed_checks }

/-- A raw item of the AI compliance analysis; every key may be absent. -/
structure RawComplianceItem where
  check_id : Option String := none
  title : Option String := none
  requirement : Option String := none
  current_state : Option String := none
  risk_level : Option String := none
  remediation : Option String := none
deriving Repr, DecidableEq

/-- The raw AI compliance payload; the lists themselves may be absent. -/
structure ComplianceAnalysisRaw where
  passed_checks : Option (List RawComplianceItem) := none
  failed_checks : Option (List RawComplianceItem) := none
deriving Repr, DecidableEq

/-- `DatabaseSecurityScanner._transform_compliance_analysis`. -/
def transform_compliance_analysis (raw : ComplianceAnalysisRaw) : ComplianceAnalysisOut :=
  let passed := raw.passed_checks.getD []
  let failed := raw.failed_checks.getD []
  let failed_checks := failed.map (fun c =>
    { check_id := c.check_id.getD "Unknown"
      title := c.title.getD ""
      requirement := c.requirement.getD ""
      current_value := c.current_state.getD ""
      severity := c.risk_level.getD "medium"
      remediation := c.remediation.getD "" })
  let total_checks := passed.length + failed.length
  let passed_checks := passed.length
  { passed_checks := passed_checks
    total_checks := total_checks
    compliance_percentage :=
      if total_checks > 0 then (passed_checks : ℚ) / (total_checks : ℚ) * 100 else 100
    failed_checks := failed_checks }

/-- The compliance argument of `_calculate_overall_risk`: the aggregator only
reads `compliance_percentage`, with `.get(..., 100)` — the key may be absent. -/
structure ComplianceAnalysisIn where
  compliance_percentage : Option ℚ := none
deriving Repr, DecidableEq

/-- The dictionary returned by `_calculate_overall_risk`. -/
structure RiskAssessment where
  security_score : ℚ
  risk_level : String
  critical_issue_count : Nat
  warning_count : Nat
  vulnerability_count : Nat
  compliance_percentage : ℚ
deriving Repr, DecidableEq

/-- The if/elif banding on `risk_score` inside `_calculate_overall_risk`. -/
def riskLevelOf (score : ℚ) : String :=
  if score ≥ 90 then "low"
  else if score ≥ 70 then "medium"
  else if score ≥ 50 then "high"
  else "critical"

/-- `DatabaseSecurityScanner._calculate_overall_risk`. -/
def calculate_overall_risk (config_analysis : ConfigAnalysisOut)
    (vuln_analysis : VulnAnalysisOut)
    (compliance_analysis : ComplianceAnalysisIn) : RiskAssessment :=
  let issues := config_analysis.issues
  let critical_issues := issues.countP (fun i => i.severity == "critical")
  let warnings := issues.countP (fun i => i.severity == "medium" || i.severity == "high")
  let vulnerabilities := vuln_analysis.vulnerabilities.length
  let compliance_pct := compliance_analysis.compliance_percentage.getD 100
  let risk_score : ℚ :=
    100 - (critical_issues : ℚ) * 20 - (warnings : ℚ) * 5 - (vulnerabilities : ℚ) * 10
  let risk_score := min risk_score compliance_pct
  let risk_score := max 0 risk_score
  { security_score := risk_score
    risk_level := riskLevelOf risk_score
    critical_issue_count := critical_issues
    warning_count := warnings
    vulnerability_count := vulnerabilities
    compliance_percentage := compliance_pct }

/-! ## Theorems -/

/-- Each additive penalty term in `_calculate_overall_risk` is nonnegative,
so the pre-ceiling score never exceeds 100. -/
lemma penalty_base_le_hundred (issues vulns : List Finding) :
    (100 : ℚ) - (issues.countP (fun i => i.severity == "critical") : ℚ) * 20
      - (issues.countP (fun i => i.severity == "medium" || i.severity == "high") : ℚ) * 5
      - (vulns.length : ℚ) * 10 ≤ 100 := by
  have h1 : (0 : ℚ) ≤ (issues.countP (fun i => i.severity == "critical") : ℚ) :=
    Nat.cast_nonneg _
  have h2 : (0 : ℚ) ≤
      (issues.countP (fun i => i.severity == "medium" || i.severity == "high") : ℚ) :=
    Nat.cast_nonneg _
  have h3 : (0 : ℚ) ≤ (vulns.length : ℚ) := Nat.cast_nonneg _
  nlinarith

/-- C1: the security score is exactly `max 0 (min (100 − 20·critical − 5·(medium
or high) − 10·vulns) compliance_percentage)`: start at 100, subtract 20 per
critical config finding, 5 per medium-or-high config finding, 10 per
vulnerability, then apply the compliance ceiling, then the floor at 0 —
ceiling after the additive penalties, floor last. -/
theorem security_score_formula (issues vulns : List Finding) (pct : ℚ) :
    (calculate_overall_risk ⟨issues⟩ ⟨vulns⟩ ⟨some pct⟩).security_score =
      max 0 (min (100 - (issues.countP (fun i => i.severity == "critical") : ℚ) * 20
        - (issues.countP (fun i => i.severity == "medium" || i.severity == "high") : ℚ) * 5
        - (vulns.length : ℚ) * 10) pct) := rfl

/-- C2: the risk level is a pure function of the final score, with half-open
bands inclusive on the lower bound (≥90 low, 70–89 medium, 50–69 high,
<50 critical), and the boundary values map as the spec lists them. -/
theorem risk_level_banding (s : ℚ) (issues vulns : List Finding) (copt : Option ℚ) :
    (90 ≤ s → riskLevelOf s = "low") ∧
    (70 ≤ s → s < 90 → riskLevelOf s = "medium") ∧
    (50 ≤ s → s < 70 → riskLevelOf s = "high") ∧
    (s < 50 → riskLevelOf s = "critical") ∧
    riskLevelOf 90 = "low" ∧ riskLevelOf 89 = "medium" ∧ riskLevelOf 70 = "medium" ∧
    riskLevelOf 69 = "high" ∧ riskLevelOf 50 = "high" ∧ riskLevelOf 49 = "critical" ∧
    riskLevelOf 0 = "critical" ∧
    (calculate_overall_risk ⟨issues⟩ ⟨vulns⟩ ⟨copt⟩).risk_level =
      riskLevelOf (calculate_overall_risk ⟨issues⟩ ⟨vulns⟩ ⟨copt⟩).security_score := by
  refine ⟨?_, ?_, ?_, ?_, by decide, by decide, by decide, by decide, by decide,
    by decide, by decide, rfl⟩
  · intro h
    simp [riskLevelOf, h]
  · intro h1 h2
    have h90 : ¬ s ≥ 90 := not_le.mpr h2
    simp [riskLevelOf, h90, h1]
  · intro h1 h2
    have h90 : ¬ s ≥ 90 := not_le.mpr (by linarith)
    have h70 : ¬ s ≥ 70 := not_le.mpr h2
    simp [riskLevelOf, h90, h70, h1]
  · intro h
    have h90 : ¬ s ≥ 90 := not_le.mpr (by linarith)
    have h70 : ¬ s ≥ 70 := not_le.mpr (by linarith)
    have h50 : ¬ s ≥ 50 := not_le.mpr h
    simp [riskLevelOf, h90, h70, h50]

/-- Witness for C2 at score 90. -/
theorem risk_level_banding_witness : riskLevelOf 90 = "low" :=
  (risk_level_banding 90 [] [] none).1 (by norm_num)

/-- C6: for every snapshot, `run_all_checks` returns exactly one result per
registered check — six, with check ids 2.2, 2.3, 2.4, 2.5, 4.2, 4.3 in order.
Determinism and non-mutation hold by construction: the embedding is a pure
function of the snapshot. -/
theorem run_all_checks_cardinality (config : ConfigSnapshot) :
    (run_all_checks config).length = 6 ∧
    (run_all_checks config).map CheckResult.check_id =
      ["2.2", "2.3", "2.4", "2.5", "4.2", "4.3"] := ⟨rfl, rfl⟩

/-- C8: on the empty snapshot every one of the six checks FAILs, the
current values are the failing defaults (off/off/off/none/off/md5 in check
order), and the compliance summary reports 0% rather than an error. -/
theorem empty_snapshot_all_fail :
    ((run_all_checks []).all (fun c => c.status == "FAIL")) = true ∧
    ((run_all_checks []).map CheckResult.current_value =
      ["off", "off", "off", "none", "off", "md5"]) ∧
    (get_compliance_summary []).compliance_percentage = 0 := by
  refine ⟨rfl, rfl, ?_⟩
  show (if (6 : Nat) > 0 then ((0 : Nat) : ℚ) / ((6 : Nat) : ℚ) * 100 else 0) = 0
  norm_num

/-- C10: with no `compliance_percentage` key, the aggregator defaults the
ceiling to 100, which never lowers the score: the result is exactly
`max 0 (100 − penalties)`, and the reported compliance percentage is 100. -/
theorem missing_compliance_key_uncapped (issues vulns : List Finding) :
    (calculate_overall_risk ⟨issues⟩ ⟨vulns⟩ ⟨none⟩).compliance_percentage = 100 ∧
    (calculate_overall_risk ⟨issues⟩ ⟨vulns⟩ ⟨none⟩).security_score =
      max 0 (100 - (issues.countP (fun i => i.severity == "critical") : ℚ) * 20
        - (issues.countP (fun i => i.severity == "medium" || i.severity == "high") : ℚ) * 5
        - (vulns.length : ℚ) * 10) := by
  refine ⟨rfl, ?_⟩
  show max 0 (min (100 - (issues.countP (fun i => i.severity == "critical") : ℚ) * 20
      - (issues.countP (fun i => i.severity == "medium" || i.severity == "high") : ℚ) * 5
      - (vulns.length : ℚ) * 10) ((100 : ℚ))) = _
  rw [min_eq_left (penalty_base_le_hundred issues vulns)]

/-- C3 counterexample: with compliance_percentage = −5 (outside [0,100]) and no
findings, the score is forced to 0 by the final floor, and 0 ≤ −5 is false —
`score ≤ compliance_percentage` fails for negative compliance percentages. -/
theorem score_not_le_negative_compliance :
    (calculate_overall_risk ⟨[]⟩ ⟨[]⟩ ⟨some (-5)⟩).security_score = 0 ∧
    ¬ ((calculate_overall_risk ⟨[]⟩ ⟨[]⟩ ⟨some (-5)⟩).security_score ≤ -5) := by
  constructor <;> norm_num [calculate_overall_risk, min_def, max_def]

/-- C3 amended: for any finding lists and any compliance input the score lies
in [0, 100], and it is bounded by the compliance percentage whenever that
percentage is nonnegative (for a negative percentage the final floor at 0
wins, so the bound by the percentage fails there). -/
theorem security_score_bounds (issues vulns : List Finding) (copt : Option ℚ) :
    0 ≤ (calculate_overall_risk ⟨issues⟩ ⟨vulns⟩ ⟨copt⟩).security_score ∧
    (calculate_overall_risk ⟨issues⟩ ⟨vulns⟩ ⟨copt⟩).security_score ≤ 100 ∧
    (∀ pct : ℚ, copt = some pct → 0 ≤ pct →
      (calculate_overall_risk ⟨issues⟩ ⟨vulns⟩ ⟨copt⟩).security_score ≤ pct) := by
  refine ⟨le_max_left _ _, ?_, ?_⟩
  · exact max_le (by norm_num)
      (le_trans (min_le_left _ _) (penalty_base_le_hundred issues vulns))
  · intro pct h h0
    subst h
    exact max_le h0 (min_le_right _ _)

/-- Witness for C3 amended at empty findings and compliance percentage 50. -/
theorem security_score_bounds_witness :
    (calculate_overall_risk ⟨[]⟩ ⟨[]⟩ ⟨some 50⟩).security_score ≤ 50 :=
  (security_score_bounds [] [] (some 50)).2.2 50 rfl (by norm_num)

/-- C4 counterexample: the normalizer transforms map a total of 0 checks to a
compliance percentage of 100, not 0 — `_transform_cis_checks` on the empty
check list and `_transform_compliance_analysis` on empty/absent lists both
yield 100. -/
theorem zero_total_transforms_give_hundred :
    (transform_cis_checks []).compliance_percentage = 100 ∧
    (transform_cis_checks []).compliance_percentage ≠ 0 ∧
    (transform_compliance_analysis ⟨some [], some []⟩).compliance_percentage = 100 ∧
    (transform_compliance_analysis ⟨none, none⟩).compliance_percentage = 100 := by
  refine ⟨?_, ?_, ?_, ?_⟩ <;> decide

/-- C4 amended: only the rule catalog's `get_compliance_summary` guards a zero
total with 0% — and there the guard is dead code, since the total is always 6;
the two normalizer transforms guard a zero total with 100% instead. -/
theorem compliance_pct_zero_total_conventions (config : ConfigSnapshot) :
    (get_compliance_summary config).total_checks = 6 ∧
    ((get_compliance_summary []).compliance_percentage = 0 ∧
      (transform_cis_checks (run_all_checks config)).total_checks = 6) ∧
    (transform_cis_checks []).compliance_percentage = 100 ∧
    (transform_compliance_analysis ⟨none, none⟩).compliance_percentage = 100 := by
  refine ⟨rfl, ⟨?_, rfl⟩, by decide, by decide⟩
  show (if (6 : Nat) > 0 then ((0 : Nat) : ℚ) / ((6 : Nat) : ℚ) * 100 else 0) = 0
  norm_num

/-- C5 counterexample: a vulnerability item whose severity field is present
but outside {critical, high, medium, low} is propagated verbatim by
`_transform_vulnerability_analysis`, not coerced to medium. -/
theorem unknown_severity_propagated :
    ((transform_vulnerability_analysis
        ⟨some [{ severity := some "informational" }]⟩).vulnerabilities.map
      Finding.severity) = ["informational"] ∧
    "informational" ≠ "critical" ∧ "informational" ≠ "high" ∧
    "informational" ≠ "medium" ∧ "informational" ≠ "low" := by
  refine ⟨rfl, ?_, ?_, ?_, ?_⟩ <;> decide

/-- C5 amended: the normalized severity is the raw item's severity field taken
verbatim whenever the field is present — whatever its value — and defaults to
medium only when the field is absent; membership in the fixed severity set is
not enforced. -/
theorem vuln_severity_verbatim_or_medium (raw : VulnAnalysisRaw) :
    ((transform_vulnerability_analysis raw).vulnerabilities.map Finding.severity) =
      ((raw.vulnerabilities.getD []).map (fun item => item.severity.getD "medium")) ∧
    (transform_vulnerability_analysis raw).vulnerabilities.length =
      (raw.vulnerabilities.getD []).length := by
  constructor
  · simp only [transform_vulnerability_analysis, List.map_map]
    rfl
  · simp [transform_vulnerability_analysis]

/-- C7: config-analysis normalization forces severities — every item of
`critical_issues` yields a finding with severity critical and every item of
`warnings` one with severity medium, whatever severity field the raw item
carries; every output severity is critical or medium; item description and
remediation fields default to the empty string when absent; absent lists
default to empty, producing no findings. -/
theorem transform_config_forced_severities (raw : ConfigAnalysisRaw) :
    ((transform_config_analysis raw).issues.length =
      (raw.critical_issues.getD []).length + (raw.warnings.getD []).length) ∧
    (∀ f ∈ (transform_config_analysis raw).issues,
      f.severity = "critical" ∨ f.severity = "medium") ∧
    (∀ item ∈ raw.critical_issues.getD [],
      ∃ f ∈ (transform_config_analysis raw).issues,
        f.severity = "critical" ∧ f.description = item.issue.getD "" ∧
        f.remediation = item.recommendation.getD "") ∧
    (∀ item ∈ raw.warnings.getD [],
      ∃ f ∈ (transform_config_analysis raw).issues,
        f.severity = "medium" ∧ f.description = item.concern.getD "" ∧
        f.remediation = item.recommendation.getD "") ∧
    (transform_config_analysis {}).issues = [] := by
  refine ⟨by simp [transform_config_analysis], ?_, ?_, ?_, rfl⟩
  · intro f hf
    simp only [transform_config_analysis, List.mem_append, List.mem_map] at hf
    rcases hf with ⟨item, _, rfl⟩ | ⟨item, _, rfl⟩
    · exact Or.inl rfl
    · exact Or.inr rfl
  · intro item h
    exact ⟨_, List.mem_append_left _ (List.mem_map_of_mem _ h), rfl, rfl, rfl⟩
  · intro item h
    exact ⟨_, List.mem_append_right _ (List.mem_map_of_mem _ h), rfl, rfl, rfl⟩

/-- Witness for C7: one critical issue carrying a raw severity field that says
low is still normalized with severity critical. -/
theorem transform_config_forced_severities_witness :
    ∃ f ∈ (transform_config_analysis
        ⟨some [{ parameter := some "ssl", issue := some "ssl is off",
                 recommendation := some "enable ssl", severity := some "low" }],
         none⟩).issues,
      f.severity = "critical" ∧ f.description = "ssl is off" ∧
      f.remediation = "enable ssl" :=
  (transform_config_forced_severities
      ⟨some [{ parameter := some "ssl", issue := some "ssl is off",
               recommendation := some "enable ssl", severity := some "low" }],
       none⟩).2.2.1
    { parameter := some "ssl", issue := some "ssl is off",
      recommendation := some "enable ssl", severity := some "low" }
    (List.mem_singleton.mpr rfl)

/-- C9 counterexample: with no findings and compliance percentage 500/6 (five
of six checks passing), the ceiling binds and the security score is 500/6,
which equals no integer. -/
theorem security_score_fractional :
    (calculate_overall_risk ⟨[]⟩ ⟨[]⟩ ⟨some (500 / 6)⟩).security_score = 500 / 6 ∧
    ¬ ∃ n : ℤ, (calculate_overall_risk ⟨[]⟩ ⟨[]⟩ ⟨some (500 / 6)⟩).security_score =
      (n : ℚ) := by
  have h : (calculate_overall_risk ⟨[]⟩ ⟨[]⟩ ⟨some (500 / 6)⟩).security_score =
      500 / 6 := by
    norm_num [calculate_overall_risk, min_def, max_def]
  refine ⟨h, ?_⟩
  rintro ⟨n, hn⟩
  rw [h, div_eq_iff (by norm_num : (6 : ℚ) ≠ 0)] at hn
  have h2 : (500 : ℤ) = n * 6 := by exact_mod_cast hn
  omega

/-- C9 amended: the security score is an integer (in 0–100) whenever the
supplied compliance percentage is an integer; when the ceiling binds at a
non-integral percentage such as 500/6 the score is that same non-integral
rational (see the counterexample). -/
theorem security_score_integral_for_integral_pct (issues vulns : List Finding)
    (n : ℤ) :
    ∃ m : ℤ, 0 ≤ m ∧ m ≤ 100 ∧
      (calculate_overall_risk ⟨issues⟩ ⟨vulns⟩ ⟨some (n : ℚ)⟩).security_score =
        (m : ℚ) := by
  have hC : (0 : ℤ) ≤ (issues.countP (fun i => i.severity == "critical") : ℤ) :=
    Int.natCast_nonneg _
  have hW : (0 : ℤ) ≤
      (issues.countP (fun i => i.severity == "medium" || i.severity == "high") : ℤ) :=
    Int.natCast_nonneg _
  have hV : (0 : ℤ) ≤ (vulns.length : ℤ) := Int.natCast_nonneg _
  refine ⟨max 0 (min (100
      - (issues.countP (fun i => i.severity == "critical") : ℤ) * 20
      - (issues.countP (fun i => i.severity == "medium" || i.severity == "high") : ℤ) * 5
      - (vulns.length : ℤ) * 10) n), le_max_left _ _, ?_, ?_⟩
  · refine max_le (by norm_num) (le_trans (min_le_left _ _) ?_)
    nlinarith
  · show max 0 (min ((100 : ℚ)
        - (issues.countP (fun i => i.severity == "critical") : ℚ) * 20
        - (issues.countP (fun i => i.severity == "medium" || i.severity == "high") : ℚ) * 5
        - (vulns.length : ℚ) * 10) ((n : ℚ))) = _
    push_cast
    ring_nf

end DBScanner
